import Mathlib

/-!
Verification of the Evolvia nation-simulation engine (src/main.py).

The Python engine is shallowly embedded below. Python integers are `Int`.
Python `//` (floor division) is `Int.fdiv`; Python `int(...)` truncation
toward zero on the population-growth product is `Int.tdiv` on the exact
rational value `population * (20 + 2*economy - crime) / 2000`, which is the
fixed-point truncating-division semantics the design mandates for this
expression. Randomness (`random.randint`, `random.random`, `random.choice`)
and uuid generation are modelled as explicit draw parameters threaded into
each operation, so theorems quantify over every possible draw sequence.
-/

namespace Evolvia

/-- National resource pool: the four resources of `Country.__init__`
(`food`, `money`, `tech`, `reputation`). -/
structure Resources where
  food : Int
  money : Int
  tech : Int
  reputation : Int
deriving DecidableEq, Repr

/-- One step of `Country.add_event`'s effect loop:
`if k in self.resources: self.resources[k] += v`. -/
def Resources.addKey (r : Resources) (k : String) (v : Int) : Resources :=
  if k = "food" then { r with food := r.food + v }
  else if k = "money" then { r with money := r.money + v }
  else if k = "tech" then { r with tech := r.tech + v }
  else if k = "reputation" then { r with reputation := r.reputation + v }
  else r

/-- `City` from src/main.py: id, name, population, economy, crime,
happiness, features. -/
structure City where
  id : String
  name : String
  population : Int
  economy : Int
  crime : Int
  happiness : Int
  features : List String
deriving DecidableEq, Repr

/-- `Law` from src/main.py; `impact` is the dict's items in insertion
order. -/
structure Law where
  id : String
  title : String
  description : String
  impact : List (String × Int)
deriving DecidableEq, Repr

/-- `Event` from src/main.py; `effect` is the dict's items in insertion
order. -/
structure Event where
  id : String
  description : String
  effect : List (String × Int)
  year : Int
deriving DecidableEq, Repr

/-- `Country` from src/main.py. -/
structure Country where
  name : String
  description : String
  population : Int
  cities : List City
  laws : List Law
  events : List Event
  year : Int
  resources : Resources
deriving DecidableEq, Repr

/-- The aggregated law-effect dict `{"crime": 0, "happiness": 0}` built at
the top of `Country.simulate_tick`; it always has exactly these two keys. -/
structure LawEffects where
  crime : Int
  happiness : Int
deriving DecidableEq, Repr

/-- The three random draws one `City.yearly_update` consumes:
`randint(0,2)`, `randint(-1,2)`, `randint(-1,1)`. -/
structure CityDraws where
  econ : Int
  happy : Int
  crime : Int
deriving DecidableEq, Repr

/-- Ranges the three per-city draws are sampled from. -/
def CityDraws.valid (d : CityDraws) : Prop :=
  0 ≤ d.econ ∧ d.econ ≤ 2 ∧ -1 ≤ d.happy ∧ d.happy ≤ 2 ∧ -1 ≤ d.crime ∧ d.crime ≤ 1

instance (d : CityDraws) : Decidable d.valid := by
  unfold CityDraws.valid
  infer_instance

/-- All randomness one `Country.simulate_tick` call consumes: per-city
draws (city `i` consumes `city i`), the three resource draws
`randint(-500,900)`, `randint(0,30)`, `randint(-2,3)`, the event roll
`random.random() < 0.3`, the good/bad choice, and the uuid strings of the
two events the tick may create. -/
structure TickDraws where
  city : Nat → CityDraws
  money : Int
  tech : Int
  reputation : Int
  eventRoll : Bool
  eventGood : Bool
  eventId : String
  starveId : String

/-- `City.yearly_update` from src/main.py: law effects (the mapping's two
keys are `crime` and `happiness`, each applied clamped to [0,100]), economic
growth capped at 100, happiness and crime drift clamped to [0,100], then
population growth `int(population * (0.01 + economy/1000 - crime/2000))`
embedded exactly as truncating division of
`population * (20 + 2*economy - crime)` by `2000`, with the result floored
at 0. -/
def City.yearly_update (c : City) (le : LawEffects) (d : CityDraws) : City :=
  let c1 : City := { c with
    crime := max 0 (min 100 (c.crime + le.crime)),
    happiness := max 0 (min 100 (c.happiness + le.happiness)) }
  let econ := min 100 (c1.economy + d.econ)
  let happ := max 0 (min 100 (c1.happiness + d.happy))
  let crim := max 0 (min 100 (c1.crime + d.crime))
  let growth := Int.tdiv (c1.population * (20 + 2 * econ - crim)) 2000
  { c1 with
    economy := econ, happiness := happ, crime := crim,
    population := max 0 (c1.population + growth) }

/-- One step of the inner loop of the law-effects aggregation:
`if k in law_effects: law_effects[k] += v`. -/
def addImpact (acc : LawEffects) (kv : String × Int) : LawEffects :=
  if kv.1 = "crime" then { acc with crime := acc.crime + kv.2 }
  else if kv.1 = "happiness" then { acc with happiness := acc.happiness + kv.2 }
  else acc

/-- The law-effects aggregation at the top of `Country.simulate_tick`. -/
def computeLawEffects (laws : List Law) : LawEffects :=
  laws.foldl (fun acc law => law.impact.foldl addImpact acc) { crime := 0, happiness := 0 }

/-- The city-update loop of `Country.simulate_tick`: city `i` consumes
draw triple `ds i`. -/
def updateCities (le : LawEffects) : (Nat → CityDraws) → List City → List City
  | _, [] => []
  | ds, c :: cs => c.yearly_update le (ds 0) :: updateCities le (fun i => ds (i + 1)) cs

/-- Steps 1-5 of `Country.simulate_tick`: aggregate law effects, update
every city, recompute national population (kept when there are no cities),
apply food production/consumption and the three random resource deltas
(reputation clamped to [0,100]). -/
def tickPart1 (s : Country) (d : TickDraws) : Country :=
  let le := computeLawEffects s.laws
  let cities := updateCities le d.city s.cities
  let pop := if cities.isEmpty then s.population else (cities.map City.population).sum
  let foodProduced := (cities.map City.economy).sum * 5
  let foodConsumed := Int.fdiv pop 2
  { s with
    cities := cities,
    population := pop,
    resources :=
      { food := s.resources.food + (foodProduced - foodConsumed),
        money := s.resources.money + d.money,
        tech := s.resources.tech + d.tech,
        reputation := max 0 (min 100 (s.resources.reputation + d.reputation)) } }

/-- The good event created by the random-event branch. -/
def goodEvent (eid : String) (year : Int) : Event :=
  { id := eid, description := "A scientific breakthrough boosts tech!",
    effect := [("tech", 100), ("reputation", 5)], year := year }

/-- The bad event created by the random-event branch. -/
def badEvent (eid : String) (year : Int) : Event :=
  { id := eid, description := "A crop blight reduces food stores!",
    effect := [("food", -300)], year := year }

/-- The zero-effect starvation event. -/
def starvationEvent (eid : String) (year : Int) : Event :=
  { id := eid, description := "Starvation strikes the nation!",
    effect := [], year := year }

/-- The random-event block of `Country.simulate_tick`: with the roll true,
the good branch adds 100 tech and 5 reputation (unclamped), the bad branch
removes 300 food; the event is appended tagged with the current year. -/
def applyEventRoll (s : Country) (d : TickDraws) : Country :=
  if d.eventRoll then
    if d.eventGood then
      { s with
        resources := { s.resources with
          tech := s.resources.tech + 100,
          reputation := s.resources.reputation + 5 },
        events := s.events ++ [goodEvent d.eventId s.year] }
    else
      { s with
        resources := { s.resources with food := s.resources.food - 300 },
        events := s.events ++ [badEvent d.eventId s.year] }
  else s

/-- The starvation block of `Country.simulate_tick`: when food is negative,
population loses `min(population // 10, population)`, food resets to 0 and
a starvation event is appended for the current year. -/
def applyStarvation (s : Country) (sid : String) : Country :=
  if s.resources.food < 0 then
    { s with
      population := s.population - min (Int.fdiv s.population 10) s.population,
      resources := { s.resources with food := 0 },
      events := s.events ++ [starvationEvent sid s.year] }
  else s

/-- Steps 6-8 of `Country.simulate_tick`: random event roll, starvation
check, year advance. -/
def tickPart2 (s : Country) (d : TickDraws) : Country :=
  let s1 := applyEventRoll s d
  let s2 := applyStarvation s1 d.starveId
  { s2 with year := s2.year + 1 }

/-- `Country.simulate_tick` from src/main.py (status printing omitted:
it reads but never writes state). -/
def Country.simulate_tick (s : Country) (d : TickDraws) : Country :=
  tickPart2 (tickPart1 s d) d

/-- `Country.add_event` from src/main.py: append an event tagged with the
current year and apply each effect entry to the matching resource key,
with no clamping; `eid` is the uuid drawn for the new event. -/
def Country.add_event (s : Country) (eid : String) (description : String)
    (effect : List (String × Int)) : Country :=
  { s with
    events := s.events ++ [{ id := eid, description := description,
                             effect := effect, year := s.year }],
    resources := effect.foldl (fun r kv => r.addKey kv.1 kv.2) s.resources }

/-- The document written by `Country.save`: each city/law/event record
carries exactly the entity's fields (identity included). -/
structure SaveData where
  name : String
  description : String
  population : Int
  year : Int
  resources : Resources
  cities : List City
  laws : List Law
  events : List Event
deriving DecidableEq, Repr

/-- `Country.save` from src/main.py: snapshot every field into the
document. -/
def Country.save (s : Country) : SaveData :=
  { name := s.name, description := s.description, population := s.population,
    year := s.year, resources := s.resources,
    cities := s.cities, laws := s.laws, events := s.events }

/-- The city list reconstruction in `Country.load`: every field is read
back from the record except `id`, which `City.__init__` regenerates with a
fresh uuid (modelled by the supply `fresh`). -/
def loadCities : (Nat → String) → List City → List City
  | _, [] => []
  | fresh, c :: cs =>
    { id := fresh 0, name := c.name, population := c.population,
      economy := c.economy, crime := c.crime, happiness := c.happiness,
      features := c.features } :: loadCities (fun i => fresh (i + 1)) cs

/-- The law list reconstruction in `Country.load` (fresh uuids). -/
def loadLaws : (Nat → String) → List Law → List Law
  | _, [] => []
  | fresh, l :: ls =>
    { id := fresh 0, title := l.title, description := l.description,
      impact := l.impact } :: loadLaws (fun i => fresh (i + 1)) ls

/-- The event list reconstruction in `Country.load` (fresh uuids). -/
def loadEvents : (Nat → String) → List Event → List Event
  | _, [] => []
  | fresh, e :: es =>
    { id := fresh 0, description := e.description, effect := e.effect,
      year := e.year } :: loadEvents (fun i => fresh (i + 1)) es

/-- `Country.load` from src/main.py: replace the whole aggregate from the
document; `fc`, `fl`, `fe` are the fresh uuid supplies consumed by the
rebuilt cities, laws and events. -/
def Country.load (data : SaveData) (fc fl fe : Nat → String) : Country :=
  { name := data.name, description := data.description,
    population := data.population, year := data.year,
    resources := data.resources,
    cities := loadCities fc data.cities,
    laws := loadLaws fl data.laws,
    events := loadEvents fe data.events }

/-- Observable (non-identity) fields of a City. -/
def City.obs (c : City) : String × Int × Int × Int × Int × List String :=
  (c.name, c.population, c.economy, c.crime, c.happiness, c.features)

/-- Observable (non-identity) fields of a Law. -/
def Law.obs (l : Law) : String × String × List (String × Int) :=
  (l.title, l.description, l.impact)

/-- Observable (non-identity) fields of an Event. -/
def Event.obs (e : Event) : String × List (String × Int) × Int :=
  (e.description, e.effect, e.year)

/-- Observable fields of a Country: everything except the child entities'
identity fields. -/
def Country.obs (s : Country) :
    String × String × Int × Int × Resources ×
      List (String × Int × Int × Int × Int × List String) ×
      List (String × String × List (String × Int)) ×
      List (String × List (String × Int) × Int) :=
  (s.name, s.description, s.population, s.year, s.resources,
   s.cities.map City.obs, s.laws.map Law.obs, s.events.map Event.obs)

/-- A law with its impact restricted to the two keys the aggregation
reads. -/
def restrictLaw (l : Law) : Law :=
  { l with impact := l.impact.filter fun kv => kv.1 == "crime" || kv.1 == "happiness" }

/-- The freshly constructed Country of `Country.__init__`. -/
def civica : Country :=
  { name := "Civica", description := "A personal, evolving fictional nation.",
    population := 10000, cities := [], laws := [], events := [], year := 1,
    resources := { food := 5000, money := 10000, tech := 500, reputation := 50 } }

theorem getLast?_append_singleton {α : Type} (l : List α) (a : α) :
    (l ++ [a]).getLast? = some a := by
  induction l with
  | nil => rfl
  | cons x xs ih =>
    cases xs with
    | nil => rfl
    | cons y ys => simpa using ih

theorem applyEventRoll_population (s : Country) (d : TickDraws) :
    (applyEventRoll s d).population = s.population := by
  unfold applyEventRoll
  split
  · split <;> rfl
  · rfl

theorem applyEventRoll_year (s : Country) (d : TickDraws) :
    (applyEventRoll s d).year = s.year := by
  unfold applyEventRoll
  split
  · split <;> rfl
  · rfl

theorem applyEventRoll_reputation (s : Country) (d : TickDraws) :
    (applyEventRoll s d).resources.reputation = s.resources.reputation ∨
    (applyEventRoll s d).resources.reputation = s.resources.reputation + 5 := by
  unfold applyEventRoll
  split
  · split
    · right; rfl
    · left; rfl
  · left; rfl

theorem applyEventRoll_food (s : Country) (d : TickDraws) :
    (applyEventRoll s d).resources.food = s.resources.food ∨
    (applyEventRoll s d).resources.food = s.resources.food - 300 := by
  unfold applyEventRoll
  split
  · split
    · left; rfl
    · right; rfl
  · left; rfl

theorem applyStarvation_year (s : Country) (sid : String) :
    (applyStarvation s sid).year = s.year := by
  unfold applyStarvation
  split <;> rfl

theorem applyStarvation_reputation (s : Country) (sid : String) :
    (applyStarvation s sid).resources.reputation = s.resources.reputation := by
  unfold applyStarvation
  split <;> rfl

theorem applyStarvation_food_nonneg (s : Country) (sid : String) :
    0 ≤ (applyStarvation s sid).resources.food := by
  unfold applyStarvation
  split
  · exact le_refl 0
  · omega

theorem applyStarvation_of_neg (s : Country) (sid : String)
    (h : s.resources.food < 0) :
    applyStarvation s sid =
      { s with
        population := s.population - min (Int.fdiv s.population 10) s.population,
        resources := { s.resources with food := 0 },
        events := s.events ++ [starvationEvent sid s.year] } := by
  unfold applyStarvation
  rw [if_pos h]

theorem tickPart2_eq (s : Country) (d : TickDraws) :
    tickPart2 s d =
      { applyStarvation (applyEventRoll s d) d.starveId with
        year := (applyStarvation (applyEventRoll s d) d.starveId).year + 1 } := rfl

theorem tickPart1_year (s : Country) (d : TickDraws) :
    (tickPart1 s d).year = s.year := rfl

theorem tickPart1_reputation (s : Country) (d : TickDraws) :
    (tickPart1 s d).resources.reputation =
      max 0 (min 100 (s.resources.reputation + d.reputation)) := rfl

/-- C5: `simulate_tick` advances `year` by exactly one, for every state and
every outcome of the random draws. -/
theorem tick_advances_year_by_one (s : Country) (d : TickDraws) :
    (s.simulate_tick d).year = s.year + 1 := by
  show (tickPart2 (tickPart1 s d) d).year = s.year + 1
  rw [tickPart2_eq]
  show (applyStarvation (applyEventRoll (tickPart1 s d) d) d.starveId).year + 1 = s.year + 1
  rw [applyStarvation_year, applyEventRoll_year, tickPart1_year]

/-- C9: at the end of every `simulate_tick`, food is non-negative: the
starvation check resets any negative food to exactly 0. -/
theorem food_nonneg_after_tick (s : Country) (d : TickDraws) :
    0 ≤ (s.simulate_tick d).resources.food :=
  applyStarvation_food_nonneg (applyEventRoll (tickPart1 s d) d) d.starveId

/-- C4: with every random draw pinned to 0 and zero law effects, the
yearly update of a city with population 1000, economy 50, crime 10,
happiness 50 grows population by 55 and leaves economy, crime and
happiness unchanged. -/
theorem city_update_pinned_case :
    City.yearly_update
        { id := "c0", name := "Alpha", population := 1000, economy := 50,
          crime := 10, happiness := 50, features := [] }
        { crime := 0, happiness := 0 }
        { econ := 0, happy := 0, crime := 0 } =
      { id := "c0", name := "Alpha", population := 1055, economy := 50,
        crime := 10, happiness := 50, features := [] } := by
  decide

/-- C1 counterexample: a freshly constructed Country has reputation 50,
inside [0,100], yet `add_event` with a reputation delta of 60 leaves
reputation at 110 — the mutation entry point `add_event` does not clamp
reputation to [0,100]. -/
theorem reputation_clamp_counterexample :
    0 ≤ civica.resources.reputation ∧ civica.resources.reputation ≤ 100 ∧
    100 < (civica.add_event "e1" "donation"
        [("reputation", 60)]).resources.reputation := by
  decide

/-- C1 amended: within `simulate_tick`, the step-5 resource update clamps
reputation into [0,100]; after the full tick reputation lies in [0,105],
because the good-event branch then adds 5 without clamping. `add_event`
applies reputation deltas with no clamping at all. -/
theorem reputation_bounds_after_tick (s : Country) (d : TickDraws) :
    (0 ≤ (tickPart1 s d).resources.reputation ∧
      (tickPart1 s d).resources.reputation ≤ 100) ∧
    0 ≤ (s.simulate_tick d).resources.reputation ∧
      (s.simulate_tick d).resources.reputation ≤ 105 := by
  have h1 : (tickPart1 s d).resources.reputation =
      max 0 (min 100 (s.resources.reputation + d.reputation)) := rfl
  have h2 : (s.simulate_tick d).resources.reputation =
      (applyEventRoll (tickPart1 s d) d).resources.reputation :=
    applyStarvation_reputation (applyEventRoll (tickPart1 s d) d) d.starveId
  have h3 := applyEventRoll_reputation (tickPart1 s d) d
  rw [h1] at h3 ⊢
  rw [h2]
  omega

/-- C2: a mid-tick state (after step 5) with food -50 and population 200
ends the tick with food 0, population 180, the starvation event appended
last tagged with the pre-increment year, and the year advanced — whatever
the event roll does. -/
theorem starvation_tick_outcome (s : Country) (d : TickDraws)
    (hf : s.resources.food = -50) (hp : s.population = 200) :
    (tickPart2 s d).resources.food = 0 ∧
    (tickPart2 s d).population = 180 ∧
    (tickPart2 s d).events.getLast? = some (starvationEvent d.starveId s.year) ∧
    (tickPart2 s d).year = s.year + 1 := by
  have h1 := applyEventRoll_food s d
  have hneg : (applyEventRoll s d).resources.food < 0 := by omega
  have hpop := applyEventRoll_population s d
  have hyear := applyEventRoll_year s d
  rw [tickPart2_eq, applyStarvation_of_neg _ _ hneg]
  refine ⟨rfl, ?_, ?_, ?_⟩
  · show (applyEventRoll s d).population -
        min (Int.fdiv (applyEventRoll s d).population 10)
          (applyEventRoll s d).population = 180
    rw [hpop, hp]
    decide
  · show ((applyEventRoll s d).events ++
        [starvationEvent d.starveId (applyEventRoll s d).year]).getLast? =
      some (starvationEvent d.starveId s.year)
    rw [hyear]
    exact getLast?_append_singleton _ _
  · show (applyEventRoll s d).year + 1 = s.year + 1
    rw [hyear]

/-- A mid-tick state matching the starvation scenario. -/
def starvingState : Country :=
  { name := "N", description := "x", population := 200, cities := [],
    laws := [], events := [], year := 7,
    resources := { food := -50, money := 0, tech := 0, reputation := 0 } }

/-- A concrete draw sequence: a bad event roll, all numeric draws 0. -/
def sampleDraws : TickDraws :=
  { city := fun _ => { econ := 0, happy := 0, crime := 0 },
    money := 0, tech := 0, reputation := 0, eventRoll := true,
    eventGood := false, eventId := "e1", starveId := "e2" }

/-- C2 witness: the starvation outcome on the concrete state. -/
theorem starvation_tick_outcome_check :
    (tickPart2 starvingState sampleDraws).resources.food = 0 ∧
    (tickPart2 starvingState sampleDraws).population = 180 ∧
    (tickPart2 starvingState sampleDraws).events.getLast? =
      some (starvationEvent "e2" 7) ∧
    (tickPart2 starvingState sampleDraws).year = 8 :=
  starvation_tick_outcome starvingState sampleDraws rfl rfl

/-- C3: one `yearly_update` with in-range draws keeps economy, crime and
happiness in [0,100] and population non-negative. -/
theorem city_update_preserves_bounds (c : City) (le : LawEffects) (d : CityDraws)
    (hd : d.valid)
    (he1 : 0 ≤ c.economy) (he2 : c.economy ≤ 100)
    (_hc1 : 0 ≤ c.crime) (_hc2 : c.crime ≤ 100)
    (_hh1 : 0 ≤ c.happiness) (_hh2 : c.happiness ≤ 100)
    (_hp : 0 ≤ c.population) :
    (0 ≤ (c.yearly_update le d).economy ∧ (c.yearly_update le d).economy ≤ 100) ∧
    (0 ≤ (c.yearly_update le d).crime ∧ (c.yearly_update le d).crime ≤ 100) ∧
    (0 ≤ (c.yearly_update le d).happiness ∧
      (c.yearly_update le d).happiness ≤ 100) ∧
    0 ≤ (c.yearly_update le d).population := by
  obtain ⟨h1, h2, h3, h4, h5, h6⟩ := hd
  have he : (c.yearly_update le d).economy = min 100 (c.economy + d.econ) := rfl
  have hcr : (c.yearly_update le d).crime =
      max 0 (min 100 (max 0 (min 100 (c.crime + le.crime)) + d.crime)) := rfl
  have hha : (c.yearly_update le d).happiness =
      max 0 (min 100 (max 0 (min 100 (c.happiness + le.happiness)) + d.happy)) := rfl
  have hpo : 0 ≤ (c.yearly_update le d).population := by
    unfold City.yearly_update
    exact le_max_left 0 _
  refine ⟨⟨?_, ?_⟩, ⟨?_, ?_⟩, ⟨?_, ?_⟩, hpo⟩ <;> simp only [he, hcr, hha] <;> omega

/-- A city at the corners of the allowed ranges. -/
def sampleCity : City :=
  { id := "c1", name := "Beta", population := 10, economy := 0, crime := 100,
    happiness := 0, features := [] }

/-- C3 witness: the invariant evaluated on the corner city with extreme
in-range draws. -/
theorem city_update_preserves_bounds_check :
    (0 ≤ (sampleCity.yearly_update { crime := 5, happiness := -3 }
        { econ := 2, happy := -1, crime := 1 }).economy ∧
      (sampleCity.yearly_update { crime := 5, happiness := -3 }
        { econ := 2, happy := -1, crime := 1 }).economy ≤ 100) ∧
    (0 ≤ (sampleCity.yearly_update { crime := 5, happiness := -3 }
        { econ := 2, happy := -1, crime := 1 }).crime ∧
      (sampleCity.yearly_update { crime := 5, happiness := -3 }
        { econ := 2, happy := -1, crime := 1 }).crime ≤ 100) ∧
    (0 ≤ (sampleCity.yearly_update { crime := 5, happiness := -3 }
        { econ := 2, happy := -1, crime := 1 }).happiness ∧
      (sampleCity.yearly_update { crime := 5, happiness := -3 }
        { econ := 2, happy := -1, crime := 1 }).happiness ≤ 100) ∧
    0 ≤ (sampleCity.yearly_update { crime := 5, happiness := -3 }
        { econ := 2, happy := -1, crime := 1 }).population :=
  city_update_preserves_bounds sampleCity
    { crime := 5, happiness := -3 } { econ := 2, happy := -1, crime := 1 }
    (by decide) (by decide) (by decide) (by decide) (by decide) (by decide)
    (by decide) (by decide)

/-- C8: with no cities, step 3 keeps the national population at its prior
value, while the resource updates of steps 4-5 and the event steps still
run. -/
theorem no_cities_tick_population (s : Country) (d : TickDraws)
    (h : s.cities = []) :
    (tickPart1 s d).population = s.population ∧
    (tickPart1 s d).resources.food =
      s.resources.food - Int.fdiv s.population 2 ∧
    (tickPart1 s d).resources.money = s.resources.money + d.money ∧
    (tickPart1 s d).resources.tech = s.resources.tech + d.tech ∧
    (tickPart1 s d).resources.reputation =
      max 0 (min 100 (s.resources.reputation + d.reputation)) ∧
    s.simulate_tick d = tickPart2 (tickPart1 s d) d := by
  have h2 : (tickPart1 s d).resources.food =
      s.resources.food - Int.fdiv s.population 2 := by
    unfold tickPart1
    rw [h]
    show s.resources.food + ((0 : Int) * 5 - Int.fdiv s.population 2) =
      s.resources.food - Int.fdiv s.population 2
    ring
  refine ⟨?_, h2, ?_, ?_, ?_, rfl⟩ <;> (unfold tickPart1; rw [h]; try rfl)

/-- C8 witness: the no-cities tick on the freshly constructed Country. -/
theorem no_cities_tick_population_check :
    (tickPart1 civica sampleDraws).population = civica.population ∧
    (tickPart1 civica sampleDraws).resources.food =
      civica.resources.food - Int.fdiv civica.population 2 ∧
    (tickPart1 civica sampleDraws).resources.money =
      civica.resources.money + sampleDraws.money ∧
    (tickPart1 civica sampleDraws).resources.tech =
      civica.resources.tech + sampleDraws.tech ∧
    (tickPart1 civica sampleDraws).resources.reputation =
      max 0 (min 100 (civica.resources.reputation + sampleDraws.reputation)) ∧
    civica.simulate_tick sampleDraws =
      tickPart2 (tickPart1 civica sampleDraws) sampleDraws :=
  no_cities_tick_population civica sampleDraws rfl

theorem yearly_update_population_nonneg (c : City) (le : LawEffects)
    (d : CityDraws) : 0 ≤ (c.yearly_update le d).population := by
  unfold City.yearly_update
  exact le_max_left 0 _

theorem updateCities_population_nonneg (le : LawEffects) (ds : Nat → CityDraws)
    (cs : List City) : ∀ c ∈ updateCities le ds cs, 0 ≤ c.population := by
  induction cs generalizing ds with
  | nil => intro c hc; simp [updateCities] at hc
  | cons x xs ih =>
    intro c hc
    simp only [updateCities, List.mem_cons] at hc
    rcases hc with h | h
    · subst h; exact yearly_update_population_nonneg x le (ds 0)
    · exact ih (fun i => ds (i + 1)) c h

theorem tickPart1_population_nonneg (s : Country) (d : TickDraws)
    (hs : 0 ≤ s.population) : 0 ≤ (tickPart1 s d).population := by
  have hpop : (tickPart1 s d).population =
      if (updateCities (computeLawEffects s.laws) d.city s.cities).isEmpty
      then s.population
      else ((updateCities (computeLawEffects s.laws) d.city s.cities).map
        City.population).sum := rfl
  rw [hpop]
  split
  · exact hs
  · apply List.sum_nonneg
    intro x hx
    rcases List.mem_map.mp hx with ⟨c, hc, hxc⟩
    rw [← hxc]
    exact updateCities_population_nonneg _ _ _ c hc

theorem applyStarvation_population_nonneg (s : Country) (sid : String)
    (h : 0 ≤ s.population) : 0 ≤ (applyStarvation s sid).population := by
  unfold applyStarvation
  split
  · show 0 ≤ s.population - min (Int.fdiv s.population 10) s.population
    have := min_le_right (Int.fdiv s.population 10) s.population
    omega
  · exact h

/-- C10: a tick keeps the national population non-negative when it starts
non-negative with non-negative city populations, for every draw
sequence. -/
theorem population_nonneg_after_tick (s : Country) (d : TickDraws)
    (hs : 0 ≤ s.population) (_hc : ∀ c ∈ s.cities, 0 ≤ c.population) :
    0 ≤ (s.simulate_tick d).population := by
  have h1 := tickPart1_population_nonneg s d hs
  have h2 : (applyEventRoll (tickPart1 s d) d).population =
      (tickPart1 s d).population := applyEventRoll_population _ _
  exact applyStarvation_population_nonneg (applyEventRoll (tickPart1 s d) d)
    d.starveId (by omega)

/-- A one-city Country. -/
def sampleCountry : Country :=
  { name := "Civica", description := "d", population := 1000,
    cities := [{ id := "c2", name := "Alpha", population := 1000,
                 economy := 50, crime := 10, happiness := 50, features := [] }],
    laws := [], events := [], year := 1,
    resources := { food := 0, money := 0, tech := 0, reputation := 50 } }

/-- C10 witness: the population bound on a concrete one-city Country. -/
theorem population_nonneg_after_tick_check :
    0 ≤ (sampleCountry.simulate_tick sampleDraws).population :=
  population_nonneg_after_tick sampleCountry sampleDraws (by decide) (by decide)

theorem loadCities_map_obs (f : Nat → String) (cs : List City) :
    (loadCities f cs).map City.obs = cs.map City.obs := by
  induction cs generalizing f with
  | nil => rfl
  | cons c cs ih => simp [loadCities, City.obs, ih]

theorem loadLaws_map_obs (f : Nat → String) (ls : List Law) :
    (loadLaws f ls).map Law.obs = ls.map Law.obs := by
  induction ls generalizing f with
  | nil => rfl
  | cons l ls ih => simp [loadLaws, Law.obs, ih]

theorem loadEvents_map_obs (f : Nat → String) (es : List Event) :
    (loadEvents f es).map Event.obs = es.map Event.obs := by
  induction es generalizing f with
  | nil => rfl
  | cons e es ih => simp [loadEvents, Event.obs, ih]

/-- C6: saving a Country and loading the document back (with any fresh
uuid supplies) yields a Country with the same observable fields: name,
description, population, year, resources, and the non-identity fields of
every city, law and event, in order. -/
theorem save_load_roundtrip_obs (s : Country) (fc fl fe : Nat → String) :
    (Country.load s.save fc fl fe).obs = s.obs := by
  unfold Country.obs Country.load Country.save
  simp [loadCities_map_obs, loadLaws_map_obs, loadEvents_map_obs]

/-- Contribution of one impact entry to the aggregation total of key
`k`. -/
def keyContribution (k : String) (kv : String × Int) : Int :=
  if kv.1 = k then kv.2 else 0

/-- Total contribution of one law to the aggregated crime delta. -/
def lawCrime (l : Law) : Int := (l.impact.map (keyContribution "crime")).sum

/-- Total contribution of one law to the aggregated happiness delta. -/
def lawHappy (l : Law) : Int :=
  (l.impact.map (keyContribution "happiness")).sum

theorem addImpact_crime (acc : LawEffects) (kv : String × Int) :
    (addImpact acc kv).crime = acc.crime + keyContribution "crime" kv := by
  unfold addImpact keyContribution
  by_cases h1 : kv.1 = "crime"
  · simp [h1]
  · by_cases h2 : kv.1 = "happiness" <;> simp [h1, h2]

theorem addImpact_happiness (acc : LawEffects) (kv : String × Int) :
    (addImpact acc kv).happiness =
      acc.happiness + keyContribution "happiness" kv := by
  unfold addImpact keyContribution
  by_cases h1 : kv.1 = "crime"
  · simp [h1]
  · by_cases h2 : kv.1 = "happiness" <;> simp [h1, h2]

theorem impact_foldl_crime (imp : List (String × Int)) (acc : LawEffects) :
    (imp.foldl addImpact acc).crime =
      acc.crime + (imp.map (keyContribution "crime")).sum := by
  induction imp generalizing acc with
  | nil => simp
  | cons kv rest ih =>
    simp only [List.foldl_cons, List.map_cons, List.sum_cons]
    rw [ih, addImpact_crime]
    ring

theorem impact_foldl_happiness (imp : List (String × Int)) (acc : LawEffects) :
    (imp.foldl addImpact acc).happiness =
      acc.happiness + (imp.map (keyContribution "happiness")).sum := by
  induction imp generalizing acc with
  | nil => simp
  | cons kv rest ih =>
    simp only [List.foldl_cons, List.map_cons, List.sum_cons]
    rw [ih, addImpact_happiness]
    ring

theorem laws_foldl_crime (laws : List Law) (acc : LawEffects) :
    (laws.foldl (fun a l => l.impact.foldl addImpact a) acc).crime =
      acc.crime + (laws.map lawCrime).sum := by
  induction laws generalizing acc with
  | nil => simp
  | cons l ls ih =>
    simp only [List.foldl_cons, List.map_cons, List.sum_cons]
    rw [ih, impact_foldl_crime]
    unfold lawCrime
    ring

theorem laws_foldl_happiness (laws : List Law) (acc : LawEffects) :
    (laws.foldl (fun a l => l.impact.foldl addImpact a) acc).happiness =
      acc.happiness + (laws.map lawHappy).sum := by
  induction laws generalizing acc with
  | nil => simp
  | cons l ls ih =>
    simp only [List.foldl_cons, List.map_cons, List.sum_cons]
    rw [ih, impact_foldl_happiness]
    unfold lawHappy
    ring

theorem LawEffects.eq_of_fields {a b : LawEffects} (h1 : a.crime = b.crime)
    (h2 : a.happiness = b.happiness) : a = b := by
  cases a
  cases b
  simp_all

theorem computeLawEffects_eq (laws : List Law) :
    computeLawEffects laws =
      { crime := (laws.map lawCrime).sum,
        happiness := (laws.map lawHappy).sum } := by
  refine LawEffects.eq_of_fields ?_ ?_
  · simpa using laws_foldl_crime laws { crime := 0, happiness := 0 }
  · simpa using laws_foldl_happiness laws { crime := 0, happiness := 0 }

theorem keyContribution_restrict (k : String)
    (hk : k = "crime" ∨ k = "happiness") (imp : List (String × Int)) :
    (((imp.filter fun kv => kv.1 == "crime" || kv.1 == "happiness").map
      (keyContribution k)).sum) = (imp.map (keyContribution k)).sum := by
  induction imp with
  | nil => rfl
  | cons kv rest ih =>
    rw [List.filter_cons]
    split
    · simp [ih]
    · next hkv =>
      have h1 : kv.1 ≠ "crime" := fun hh => hkv (by simp [hh])
      have h2 : kv.1 ≠ "happiness" := fun hh => hkv (by simp [hh])
      have h0 : keyContribution k kv = 0 := by
        unfold keyContribution
        rcases hk with h | h <;> subst h
        · exact if_neg h1
        · exact if_neg h2
      simp [ih, h0]

theorem lawCrime_restrict (l : Law) : lawCrime (restrictLaw l) = lawCrime l :=
  keyContribution_restrict "crime" (Or.inl rfl) l.impact

theorem lawHappy_restrict (l : Law) : lawHappy (restrictLaw l) = lawHappy l :=
  keyContribution_restrict "happiness" (Or.inr rfl) l.impact

/-- C7: the aggregated law effects are invariant under permuting the law
sequence, and restricting every law's impact to the keys `crime` and
`happiness` does not change the result — other keys contribute nothing. -/
theorem law_effects_perm_and_restrict (l1 l2 : List Law) (h : l1.Perm l2) :
    computeLawEffects l1 = computeLawEffects l2 ∧
    computeLawEffects l1 = computeLawEffects (l1.map restrictLaw) := by
  constructor
  · rw [computeLawEffects_eq l1, computeLawEffects_eq l2,
      (h.map lawCrime).sum_eq, (h.map lawHappy).sum_eq]
  · rw [computeLawEffects_eq l1, computeLawEffects_eq (l1.map restrictLaw)]
    simp [List.map_map, Function.comp_def, lawCrime_restrict, lawHappy_restrict]

/-- A law touching both aggregated keys. -/
def lawA : Law :=
  { id := "l1", title := "Curfew", description := "a",
    impact := [("crime", -2), ("happiness", 1)] }

/-- A law with an unrecognized impact key. -/
def lawB : Law :=
  { id := "l2", title := "Subsidy", description := "b",
    impact := [("taxes", 5), ("crime", 3)] }

/-- C7 witness: the aggregation on a concrete two-law sequence and its
swap. -/
theorem law_effects_perm_and_restrict_check :
    computeLawEffects [lawA, lawB] = computeLawEffects [lawB, lawA] ∧
    computeLawEffects [lawA, lawB] =
      computeLawEffects ([lawA, lawB].map restrictLaw) :=
  law_effects_perm_and_restrict [lawA, lawB] [lawB, lawA] (by decide)

end Evolvia
